import Mathlib

/-!
Verification of the tesselite pub/sub client library (`src/tesselite/pubsub.py`)
against its natural-language specification.

The embedding models:
- the fault taxonomy raised and classified by the library,
- the Retry Policy wrapper `connexion` (from `tesselite.exceptions`, modelled
  from the spec since that module is not part of the given sources),
- the Redis backend's consume event loop and `close`,
- the GCP backend's provisioning (`check_topic`, `check_subscription`),
  consume callback wrapper, consume session, and `close`,
- the broker factory `pubsubFactory`,
- Python's strict UTF-8 codec used by `str.encode` / `bytes.decode`.

Payloads and byte strings are `List Nat`; text is represented by its list of
Unicode code points.
-/

namespace Tesselite

/-- The fault (exception) kinds the library raises, classifies or observes.
`callbackError n` stands for an arbitrary user-callback exception. -/
inductive Fault where
  | gaierror
  | connectionError
  | serviceUnavailable
  | alreadyExists
  | notFound
  | invalidArgument
  | retryError
  | timeoutError
  | messageProcessingException
  | unicodeDecodeError
  | attributeError
  | keyboardInterrupt
  | callbackError (n : Nat)
  deriving DecidableEq, Repr

/-- Python's `except Exception` catches every fault except `KeyboardInterrupt`
(a `BaseException` that is not an `Exception`). -/
def Fault.isException : Fault → Bool
  | .keyboardInterrupt => false
  | _ => true

instance {ε α : Type} [DecidableEq ε] [DecidableEq α] :
    DecidableEq (Except ε α) := fun a b =>
  match a, b with
  | .ok x, .ok y => if h : x = y then .isTrue (by rw [h]) else
      .isFalse (by intro hc; cases hc; exact h rfl)
  | .error x, .error y => if h : x = y then .isTrue (by rw [h]) else
      .isFalse (by intro hc; cases hc; exact h rfl)
  | .ok _, .error _ => .isFalse (by intro hc; cases hc)
  | .error _, .ok _ => .isFalse (by intro hc; cases hc)

/-- Outcome, accumulated side-effect log and number of attempts made by one
Retry-Policy-wrapped operation. -/
structure RunResult (α : Type) where
  outcome : Except Fault Unit
  log : List α
  attempts : Nat
  deriving Repr

/-- Modelled from the spec: the Retry Policy wrapper `connexion` from
`tesselite.exceptions` (that module is not among the given sources; §4.1 of the
spec states its contract). The wrapped operation `op` is given the attempt
number and returns its outcome together with a log of its side effects.
On success the result is returned unchanged; a fault in the `noisy` set is
suppressed as a no-op success; a fault in the `expected` set is retried with
backoff, bounded here by `fuel` (the spec requires the backoff to be bounded),
propagating the fault once the budget is exhausted; any other fault is
re-raised immediately. -/
def connexionRun (expected noisy : List Fault)
    (op : Nat → Except Fault Unit × List α) :
    Nat → Nat → RunResult α
  | fuel, attempt =>
    match op attempt with
    | (.ok _, l) => ⟨.ok (), l, 1⟩
    | (.error f, l) =>
      if f ∈ noisy then ⟨.ok (), l, 1⟩
      else if f ∈ expected then
        match fuel with
        | 0 => ⟨.error f, l, 1⟩
        | fuel' + 1 =>
          let r := connexionRun expected noisy op fuel' (attempt + 1)
          ⟨r.outcome, l ++ r.log, r.attempts + 1⟩
      else ⟨.error f, l, 1⟩

/-- Modelled from the spec: the stateful form of the Retry Policy, for wrapped
operations that act on broker state (provisioning calls). Retries re-run the
operation on the state left by the failed attempt. -/
def connexionSt {σ : Type} (expected noisy : List Fault)
    (op : σ → Except Fault Unit × σ) : Nat → σ → Except Fault Unit × σ
  | fuel, s =>
    match op s with
    | (.ok _, s') => (.ok (), s')
    | (.error f, s') =>
      if f ∈ noisy then (.ok (), s')
      else if f ∈ expected then
        match fuel with
        | 0 => (.error f, s')
        | fuel' + 1 => connexionSt expected noisy op fuel' s'
      else (.error f, s')

/-! ## The broker factory (`pubsubFactory`, pubsub.py lines 260-273) -/

/-- What a call to `pubsubFactory` does: return one of the two client classes,
or terminate the process (`exit(1)`). -/
inductive FactoryResult where
  | redisClient
  | gcpClient
  | processExit (code : Nat)
  deriving DecidableEq, Repr

/-- Python's `str.upper` on one character (identifiers here are ASCII, where
`upper` maps `a..z` to `A..Z` and leaves everything else unchanged).
Characters are Unicode code points. -/
def pyUpperChar (c : Nat) : Nat :=
  if 97 ≤ c ∧ c ≤ 122 then c - 32 else c

/-- Python's `str.upper` over a string given as its list of code points. -/
def pyUpper (s : List Nat) : List Nat := s.map pyUpperChar

/-- The code points of the literal `"REDIS"`. -/
def litREDIS : List Nat := [82, 69, 68, 73, 83]

/-- The code points of the literal `"GCP-PUBSUB"`. -/
def litGCPPUBSUB : List Nat := [71, 67, 80, 45, 80, 85, 66, 83, 85, 66]

/-- `pubsubFactory` (pubsub.py 260-273): case-insensitive match on the broker
identifier (`broker.upper()` compared against the two supported literals); on
an unrecognized identifier it logs at fatal severity and calls `exit(1)`. -/
def pubsubFactory (broker : List Nat) : FactoryResult :=
  if pyUpper broker = litREDIS then .redisClient
  else if pyUpper broker = litGCPPUBSUB then .gcpClient
  else .processExit 1

/-! ## `close` for both backends -/

/-- The Redis client's connection handle slot `self._client`: `none` until
`open` assigns a connection. -/
structure RedisClientState where
  client : Option Unit
  deriving DecidableEq, Repr

/-- `RedisPubsub.close` (pubsub.py 89-91): `self._client.close()`. When
`_client` is still `None` (no `open` has run), attribute access on `None`
raises `AttributeError`. -/
def redisClose (s : RedisClientState) : Except Fault Unit :=
  match s.client with
  | some _ => .ok ()
  | none => .error .attributeError

/-- `GCPPubSub.close` (pubsub.py 169-170): only logs; never faults. -/
def gcpClose : Except Fault Unit := .ok ()

/-! ## Python's strict UTF-8 codec (`str.encode` / `bytes.decode`)

Both backends decode the received payload with `bytes.decode()` before handing
it to the user callback, and `GCPPubSub.publish` encodes text payloads with
`str.encode()`. Python uses strict UTF-8: encoding accepts every Unicode
scalar value (code points below `0x110000` excluding the surrogate range);
decoding rejects malformed input (stray continuation bytes, overlong forms,
surrogates, values above `0x10FFFF`) by raising `UnicodeDecodeError`. -/

/-- A Unicode scalar value: a code point encodable by Python's UTF-8 codec. -/
def ValidCodepoint (c : Nat) : Prop :=
  c < 0x110000 ∧ (c < 0xD800 ∨ 0xE000 ≤ c)

instance (c : Nat) : Decidable (ValidCodepoint c) := by
  unfold ValidCodepoint; infer_instance

/-- Every code point of the text is a Unicode scalar value. -/
def ValidText (cps : List Nat) : Prop := ∀ c ∈ cps, ValidCodepoint c

instance (cps : List Nat) : Decidable (ValidText cps) := by
  unfold ValidText; infer_instance

/-- UTF-8 encoding of one code point (1 to 4 bytes). -/
def utf8EncodeChar (c : Nat) : List Nat :=
  if c < 0x80 then [c]
  else if c < 0x800 then [0xC0 + c / 0x40, 0x80 + c % 0x40]
  else if c < 0x10000 then
    [0xE0 + c / 0x1000, 0x80 + c / 0x40 % 0x40, 0x80 + c % 0x40]
  else
    [0xF0 + c / 0x40000, 0x80 + c / 0x1000 % 0x40,
     0x80 + c / 0x40 % 0x40, 0x80 + c % 0x40]

/-- UTF-8 encoding of a text: Python's `str.encode()`. -/
def utf8Encode (cps : List Nat) : List Nat := cps.flatMap utf8EncodeChar

/-- A UTF-8 continuation byte (`0x80..0xBF`). -/
def isCont (b : Nat) : Prop := 0x80 ≤ b ∧ b < 0xC0

instance (b : Nat) : Decidable (isCont b) := by unfold isCont; infer_instance

/-- Decoding the continuation byte of a 2-byte sequence led by `b0`
(`0xC2..0xDF`; `0xC0`/`0xC1` overlong leads were already rejected). -/
def utf8Decode2 (b0 : Nat) : List Nat → Option (Nat × List Nat)
  | b1 :: rest =>
    if isCont b1 then some ((b0 - 0xC0) * 0x40 + (b1 - 0x80), rest) else none
  | [] => none

/-- Decoding the continuation bytes of a 3-byte sequence led by `b0`
(`0xE0..0xEF`); the `0xE0` restriction rejects overlong forms, the `0xED`
restriction rejects surrogates. -/
def utf8Decode3 (b0 : Nat) : List Nat → Option (Nat × List Nat)
  | b1 :: b2 :: rest =>
    if isCont b1 ∧ isCont b2 ∧ ¬(b0 = 0xE0 ∧ b1 < 0xA0) ∧
        ¬(b0 = 0xED ∧ 0xA0 ≤ b1) then
      some ((b0 - 0xE0) * 0x1000 + (b1 - 0x80) * 0x40 + (b2 - 0x80), rest)
    else none
  | _ => none

/-- Decoding the continuation bytes of a 4-byte sequence led by `b0`
(`0xF0..0xF4`); the `0xF0` restriction rejects overlong forms, the `0xF4`
restriction rejects code points above `0x10FFFF`. -/
def utf8Decode4 (b0 : Nat) : List Nat → Option (Nat × List Nat)
  | b1 :: b2 :: b3 :: rest =>
    if isCont b1 ∧ isCont b2 ∧ isCont b3 ∧ ¬(b0 = 0xF0 ∧ b1 < 0x90) ∧
        ¬(b0 = 0xF4 ∧ 0x90 ≤ b1) then
      some ((b0 - 0xF0) * 0x40000 + (b1 - 0x80) * 0x1000 +
        (b2 - 0x80) * 0x40 + (b3 - 0x80), rest)
    else none
  | _ => none

/-- Decoding one code point from the stream, after the leading byte `b0`:
returns the code point and the unconsumed remainder, or `none` on malformed
input. Leading bytes `0x80..0xC1` (stray continuation bytes and overlong
2-byte leads) and `0xF5..0xFF` are rejected outright. -/
def utf8DecodeChar (b0 : Nat) (rest : List Nat) : Option (Nat × List Nat) :=
  if b0 < 0x80 then some (b0, rest)
  else if b0 < 0xC2 then none
  else if b0 < 0xE0 then utf8Decode2 b0 rest
  else if b0 < 0xF0 then utf8Decode3 b0 rest
  else if b0 < 0xF5 then utf8Decode4 b0 rest
  else none

/-- Strict UTF-8 decoding of a whole byte string, with `fuel` bounding the
number of decoded code points (each code point consumes at least one byte, so
`fuel = length` suffices; the fuel only makes the recursion structural). -/
def utf8DecodeAux : Nat → List Nat → Option (List Nat)
  | _, [] => some []
  | 0, _ :: _ => none
  | fuel + 1, b0 :: rest =>
    match utf8DecodeChar b0 rest with
    | none => none
    | some (c, rest') => (utf8DecodeAux fuel rest').map (c :: ·)

/-- Strict UTF-8 decoding of a byte string: Python's `bytes.decode()`.
`none` models a raised `UnicodeDecodeError`. -/
def utf8Decode (l : List Nat) : Option (List Nat) := utf8DecodeAux l.length l

/-- `GCPPubSub.publish` payloads (pubsub.py 218): a payload is either text or
bytes; `msg.encode() if isinstance(msg, str) else msg`. -/
inductive Payload where
  | text (cps : List Nat)
  | bytes (bs : List Nat)
  deriving DecidableEq, Repr

/-- The bytes actually submitted by `publish`: text is UTF-8 encoded, bytes
pass through unchanged (pubsub.py 218). -/
def publishEncode : Payload → List Nat
  | .text cps => utf8Encode cps
  | .bytes bs => bs

/-! ## The Redis backend's consume event loop (pubsub.py 101-136) -/

/-- A raw event as delivered by `self._pubsub.listen()`: a dict with a
`type` field and a `data` field carrying the payload bytes. -/
structure RedisEvent where
  type : String
  data : List Nat
  deriving DecidableEq, Repr

/-- One step of the blocking iteration over `listen()`: either an event is
delivered, or a `KeyboardInterrupt` is raised during the blocking wait. -/
inductive RedisItem where
  | event (e : RedisEvent)
  | interrupt
  deriving DecidableEq, Repr

/-- A user callback: receives the decoded payload (as code points) and either
returns or raises a fault. Deterministic in its argument, as a Python
function called repeatedly with the same payload. -/
def Callback : Type := List Nat → Except Fault Unit

/-- The body of `RedisPubsub.consume.exec_callback` (pubsub.py 118-121):
for an event of kind `"message"`, decode the payload (`msg['data'].decode()`,
which raises `UnicodeDecodeError` on invalid UTF-8) and invoke the callback;
any other event kind is ignored. The log records the payloads handed to the
user callback. -/
def redisExecCallbackBody (cb : Callback) (e : RedisEvent) :
    Except Fault Unit × List (List Nat) :=
  if e.type = "message" then
    match utf8Decode e.data with
    | none => (.error .unicodeDecodeError, [])
    | some cps => (cb cps, [cps])
  else (.ok (), [])

/-- `exec_callback` as called by the loop: the body wrapped by the Retry
Policy with `socket.gaierror` and `redis.exceptions.ConnectionError` as
expected faults and no noisy faults (pubsub.py 117). -/
def redisExecCallback (cb : Callback) (fuel : Nat) (e : RedisEvent) :
    RunResult (List Nat) :=
  connexionRun [.gaierror, .connectionError] []
    (fun _ => redisExecCallbackBody cb e) fuel 0

/-- Observable effects of one run of the Redis consume event loop:
dead-letter republishes (`self._client.publish(deadLetter, msg)`), payloads
handed to the user callback, and the call's outcome. -/
structure RedisTrace where
  deadLetterPubs : List (String × RedisEvent)
  callbackCalls : List (List Nat)
  outcome : Except Fault Unit
  deriving DecidableEq, Repr

/-- The event loop of `RedisPubsub.consume` after subscription
(pubsub.py 124-136), run on the sequence of items the subscription delivers.
For each event, `exec_callback` runs; if it raises an `Exception`, the inner
handler logs, republishes the original raw event to the dead-letter topic
when one was supplied, and re-raises, which the outer `except Exception`
re-raises, ending the loop. A `KeyboardInterrupt` (from the blocking wait,
or uncaught by the inner `except Exception`) reaches the outer
`except KeyboardInterrupt`, which logs and returns normally. -/
def redisConsumeLoop (cb : Callback) (deadLetter : Option String)
    (fuel : Nat) : List RedisItem → RedisTrace
  | [] => ⟨[], [], .ok ()⟩
  | .interrupt :: _ => ⟨[], [], .ok ()⟩
  | .event e :: rest =>
    let r := redisExecCallback cb fuel e
    match r.outcome with
    | .ok _ =>
      let t := redisConsumeLoop cb deadLetter fuel rest
      ⟨t.deadLetterPubs, r.log ++ t.callbackCalls, t.outcome⟩
    | .error f =>
      if f.isException then
        ⟨(match deadLetter with | some dl => [(dl, e)] | none => []),
         r.log, .error f⟩
      else ⟨[], r.log, .ok ()⟩

/-! ## The GCP backend: provisioning, consume callback, consume session -/

/-- The state of the GCP Pub/Sub service visible to provisioning: the
existing topics and the existing subscriptions (name, bound topic).
Modelled from the spec: the native client calls `get_topic`, `create_topic`,
`get_subscription`, `create_subscription` are external collaborators
(out of scope in §1); §4.4 specifies them as check-or-create primitives. -/
structure GCPBroker where
  topics : List String
  subscriptions : List (String × String)
  deriving DecidableEq, Repr

/-- `publisher_client.get_topic`: succeeds when the topic exists, raises
`NotFound` otherwise. -/
def get_topic (t : String) (br : GCPBroker) : Except Fault Unit :=
  if t ∈ br.topics then .ok () else .error .notFound

/-- `publisher_client.create_topic`: raises `AlreadyExists` when the topic
exists, creates it otherwise. -/
def create_topic (t : String) (br : GCPBroker) :
    Except Fault Unit × GCPBroker :=
  if t ∈ br.topics then (.error .alreadyExists, br)
  else (.ok (), { br with topics := t :: br.topics })

/-- `subscriber_client.get_subscription`: succeeds when a subscription of
that name exists, raises `NotFound` otherwise. -/
def get_subscription (s : String) (br : GCPBroker) : Except Fault Unit :=
  if s ∈ br.subscriptions.map Prod.fst then .ok () else .error .notFound

/-- `subscriber_client.create_subscription`: raises `AlreadyExists` when a
subscription of that name exists, creates it bound to `t` otherwise. -/
def create_subscription (s t : String) (br : GCPBroker) :
    Except Fault Unit × GCPBroker :=
  if s ∈ br.subscriptions.map Prod.fst then (.error .alreadyExists, br)
  else (.ok (), { br with subscriptions := (s, t) :: br.subscriptions })

/-- The body of `GCPPubSub.check_topic` (pubsub.py 176-188): `get_topic`;
on `NotFound`, `create_topic`; any other fault re-raises. -/
def check_topic_body (t : String) (br : GCPBroker) :
    Except Fault Unit × GCPBroker :=
  match get_topic t br with
  | .ok _ => (.ok (), br)
  | .error .notFound => create_topic t br
  | .error f => (.error f, br)

/-- `GCPPubSub.check_topic`: the body wrapped by the Retry Policy with
`ServiceUnavailable` expected and `AlreadyExists` noisy (pubsub.py 172-175). -/
def check_topic (t : String) (fuel : Nat) (br : GCPBroker) :
    Except Fault Unit × GCPBroker :=
  connexionSt [.serviceUnavailable] [.alreadyExists] (check_topic_body t)
    fuel br

/-- The body of `GCPPubSub.check_subscription` (pubsub.py 194-211): first
`self.check_topic()` (the wrapped method), then `get_subscription`; on
`NotFound` or `InvalidArgument`, `create_subscription` bound to the client's
topic path; any other fault is logged and re-raised. -/
def check_subscription_body (t s : String) (fuel : Nat) (br : GCPBroker) :
    Except Fault Unit × GCPBroker :=
  match check_topic t fuel br with
  | (.error f, br') => (.error f, br')
  | (.ok _, br') =>
    match get_subscription s br' with
    | .ok _ => (.ok (), br')
    | .error .notFound => create_subscription s t br'
    | .error .invalidArgument => create_subscription s t br'
    | .error f => (.error f, br')

/-- `GCPPubSub.check_subscription`: the body wrapped by the Retry Policy with
`ServiceUnavailable` expected and `AlreadyExists` noisy (pubsub.py 190-193). -/
def check_subscription (t s : String) (fuel : Nat) (br : GCPBroker) :
    Except Fault Unit × GCPBroker :=
  connexionSt [.serviceUnavailable] [.alreadyExists]
    (check_subscription_body t s fuel) fuel br

/-- A message delivered by the GCP streaming pull. -/
structure GCPMessage where
  data : List Nat
  deriving DecidableEq, Repr

/-- The body of `GCPPubSub.consume.exec_callback` (pubsub.py 235-241):
`callback(message.data.decode())` then `message.ack()`; `except Exception`
logs and raises `MessageProcessingException` instead (so a decode fault or a
callback fault withholds the ack). The log records each `ack()` call. -/
def gcpExecCallbackBody (cb : Callback) (m : GCPMessage) :
    Except Fault Unit × List Unit :=
  match utf8Decode m.data with
  | none => (.error .messageProcessingException, [])
  | some cps =>
    match cb cps with
    | .ok _ => (.ok (), [()])
    | .error f =>
      if f.isException then (.error .messageProcessingException, [])
      else (.error f, [])

/-- `exec_callback` of the GCP consume path: the body wrapped by the Retry
Policy with `ServiceUnavailable`, `MessageProcessingException` and `NotFound`
as expected faults and no noisy faults (pubsub.py 233-234). -/
def gcpExecCallback (cb : Callback) (fuel : Nat) (m : GCPMessage) :
    RunResult Unit :=
  connexionRun [.serviceUnavailable, .messageProcessingException, .notFound]
    [] (fun _ => gcpExecCallbackBody cb m) fuel 0

/-- How the blocking `future.result()` call of the streaming pull ends:
the stream completes, a `KeyboardInterrupt` is raised into the wait, or the
stream fails with a fault. -/
inductive StreamResult where
  | completed
  | keyboardInterrupt
  | fault (f : Fault)
  deriving DecidableEq, Repr

/-- Observable effects of one `GCPPubSub.consume` call: final broker state,
data of acknowledged messages, dead-letter republishes, whether
`future.cancel()` was called, and the call's outcome. -/
structure GCPConsumeTrace where
  broker : GCPBroker
  acks : List (List Nat)
  deadLetterPubs : List (String × GCPMessage)
  cancelled : Bool
  outcome : Except Fault Unit
  deriving DecidableEq, Repr

/-- The body of `GCPPubSub.consume` (pubsub.py 244-257): provision the
subscription, start the streaming pull delivering each stream message to
`exec_callback` (collecting the acks), then block on `future.result()`:
on `KeyboardInterrupt`, `future.cancel()` and return; on any other fault,
re-raise; on completion, return. The `deadLetter` parameter is accepted
(pubsub.py 225) but never used: no dead-letter republish exists on this
path. -/
def gcpConsume (cb : Callback) (t s : String) (deadLetter : Option String)
    (fuel : Nat) (br : GCPBroker) (stream : List GCPMessage)
    (streamEnd : StreamResult) : GCPConsumeTrace :=
  match check_subscription t s fuel br with
  | (.error f, br') => ⟨br', [], [], false, .error f⟩
  | (.ok _, br') =>
    let acks := stream.flatMap (fun m => (gcpExecCallback cb fuel m).log.map
      (fun _ => m.data))
    match streamEnd with
    | .completed => ⟨br', acks, [], false, .ok ()⟩
    | .keyboardInterrupt => ⟨br', acks, [], true, .ok ()⟩
    | .fault f => ⟨br', acks, [], false, .error f⟩

/-- The Redis loop processes an item without fault: a delivered event whose
wrapped `exec_callback` returns success (an interruption never counts, since
it ends the loop). -/
def RedisItemOk (cb : Callback) (fuel : Nat) : RedisItem → Prop
  | .interrupt => False
  | .event e => (redisExecCallback cb fuel e).outcome = .ok ()

/-- The payloads the wrapped `exec_callback` hands to the user callback while
processing one item. -/
def itemCalls (cb : Callback) (fuel : Nat) : RedisItem → List (List Nat)
  | .interrupt => []
  | .event e => (redisExecCallback cb fuel e).log

/-! ## Helper lemmas: the UTF-8 codec round trip -/

theorem utf8EncodeChar_ne_nil (c : Nat) : utf8EncodeChar c ≠ [] := by
  rw [utf8EncodeChar]
  split
  · simp
  · split
    · simp
    · split <;> simp

/-- Decoding one encoded code point consumes exactly its bytes and yields the
code point back, for every Unicode scalar value. -/
theorem utf8DecodeAux_encodeChar (c : Nat) (h : ValidCodepoint c)
    (tail : List Nat) (fuel : Nat) :
    utf8DecodeAux (fuel + 1) (utf8EncodeChar c ++ tail) =
      (utf8DecodeAux fuel tail).map (c :: ·) := by
  obtain ⟨hmax, hsur⟩ := h
  by_cases h1 : c < 0x80
  · rw [utf8EncodeChar, if_pos h1]
    rw [List.cons_append, List.nil_append, utf8DecodeAux]
    rw [utf8DecodeChar, if_pos h1]
  · by_cases h2 : c < 0x800
    · rw [utf8EncodeChar, if_neg h1, if_pos h2]
      rw [List.cons_append, List.cons_append, List.nil_append, utf8DecodeAux]
      rw [utf8DecodeChar, if_neg (by omega), if_neg (by omega),
        if_pos (by omega)]
      rw [utf8Decode2, if_pos (by constructor <;> omega)]
      have hv : (0xC0 + c / 0x40 - 0xC0) * 0x40 +
          (0x80 + c % 0x40 - 0x80) = c := by omega
      rw [hv]
    · by_cases h3 : c < 0x10000
      · rw [utf8EncodeChar, if_neg h1, if_neg h2, if_pos h3]
        rw [List.cons_append, List.cons_append, List.cons_append,
          List.nil_append, utf8DecodeAux]
        rw [utf8DecodeChar, if_neg (by omega), if_neg (by omega),
          if_neg (by omega), if_pos (by omega)]
        rw [utf8Decode3, if_pos ?side]
        case side =>
          refine ⟨⟨by omega, by omega⟩, ⟨by omega, by omega⟩, ?_, ?_⟩
          · rintro ⟨he, hb⟩; omega
          · rintro ⟨he, hb⟩; omega
        have hv : (0xE0 + c / 0x1000 - 0xE0) * 0x1000 +
            (0x80 + c / 0x40 % 0x40 - 0x80) * 0x40 +
            (0x80 + c % 0x40 - 0x80) = c := by omega
        rw [hv]
      · rw [utf8EncodeChar, if_neg h1, if_neg h2, if_neg h3]
        rw [List.cons_append, List.cons_append, List.cons_append,
          List.cons_append, List.nil_append, utf8DecodeAux]
        rw [utf8DecodeChar, if_neg (by omega), if_neg (by omega),
          if_neg (by omega), if_neg (by omega), if_pos (by omega)]
        rw [utf8Decode4, if_pos ?side]
        case side =>
          refine ⟨⟨by omega, by omega⟩, ⟨by omega, by omega⟩,
            ⟨by omega, by omega⟩, ?_, ?_⟩
          · rintro ⟨he, hb⟩; omega
          · rintro ⟨he, hb⟩; omega
        have hv : (0xF0 + c / 0x40000 - 0xF0) * 0x40000 +
            (0x80 + c / 0x1000 % 0x40 - 0x80) * 0x1000 +
            (0x80 + c / 0x40 % 0x40 - 0x80) * 0x40 +
            (0x80 + c % 0x40 - 0x80) = c := by omega
        rw [hv]

theorem utf8DecodeAux_encode (cps : List Nat) (h : ValidText cps) :
    ∀ fuel : Nat, (utf8Encode cps).length ≤ fuel →
      utf8DecodeAux fuel (utf8Encode cps) = some cps := by
  induction cps with
  | nil =>
    intro fuel _
    rw [show utf8Encode [] = [] from rfl]
    cases fuel <;> rfl
  | cons c cs ih =>
    intro fuel hf
    have henc : utf8Encode (c :: cs) = utf8EncodeChar c ++ utf8Encode cs := by
      simp [utf8Encode]
    have hlen1 : 1 ≤ (utf8EncodeChar c).length := by
      cases hh : utf8EncodeChar c with
      | nil => exact absurd hh (utf8EncodeChar_ne_nil c)
      | cons a l => simp
    have hlen : (utf8Encode (c :: cs)).length =
        (utf8EncodeChar c).length + (utf8Encode cs).length := by
      rw [henc, List.length_append]
    match fuel with
    | 0 => omega
    | fuel' + 1 =>
      rw [henc, utf8DecodeAux_encodeChar c (h c (by simp)) _ fuel']
      rw [ih (fun x hx => h x (by simp [hx])) fuel' (by omega)]
      rfl

/-- Python's `bytes.decode` is a left inverse of `str.encode`: decoding the
UTF-8 encoding of any text succeeds and returns that text. -/
theorem utf8Decode_encode (cps : List Nat) (h : ValidText cps) :
    utf8Decode (utf8Encode cps) = some cps :=
  utf8DecodeAux_encode cps h _ (le_refl _)

/-! ## Helper lemmas: the Retry Policy wrapper -/

/-- A successful attempt returns the operation's result unchanged, after one
attempt. -/
theorem connexionRun_ok {α : Type} (expected noisy : List Fault)
    (op : Nat → Except Fault Unit × List α) (fuel attempt : Nat)
    (l : List α) (hop : op attempt = (.ok (), l)) :
    connexionRun expected noisy op fuel attempt = ⟨.ok (), l, 1⟩ := by
  rw [connexionRun, hop]

/-- A fault in the noisy set is suppressed as a no-op success after one
attempt. -/
theorem connexionRun_noisy {α : Type} (expected noisy : List Fault)
    (op : Nat → Except Fault Unit × List α) (fuel attempt : Nat)
    (f : Fault) (l : List α) (hop : op attempt = (.error f, l))
    (hn : f ∈ noisy) :
    connexionRun expected noisy op fuel attempt = ⟨.ok (), l, 1⟩ := by
  rw [connexionRun, hop]
  simp only [if_pos hn]

/-- A fault in neither set is re-raised after exactly one attempt. -/
theorem connexionRun_unexpected {α : Type} (expected noisy : List Fault)
    (op : Nat → Except Fault Unit × List α) (fuel attempt : Nat)
    (f : Fault) (l : List α) (hop : op attempt = (.error f, l))
    (hn : f ∉ noisy) (he : f ∉ expected) :
    connexionRun expected noisy op fuel attempt = ⟨.error f, l, 1⟩ := by
  rw [connexionRun, hop]
  simp only [if_neg hn, if_neg he]

/-- An operation that faults the same non-noisy fault on every attempt makes
the wrapper end with that fault, whether or not it is retried. -/
theorem connexionRun_error_outcome {α : Type} (expected noisy : List Fault)
    (op : Nat → Except Fault Unit × List α) (f : Fault)
    (hop : ∀ n, (op n).1 = .error f) (hn : f ∉ noisy) :
    ∀ fuel attempt,
      (connexionRun expected noisy op fuel attempt).outcome = .error f := by
  intro fuel
  induction fuel with
  | zero =>
    intro attempt
    have hop' : op attempt = (.error f, (op attempt).2) := by
      rw [← hop attempt]
    rw [connexionRun, hop']
    simp only [if_neg hn]
    split <;> rfl
  | succ fuel' ih =>
    intro attempt
    have hop' : op attempt = (.error f, (op attempt).2) := by
      rw [← hop attempt]
    rw [connexionRun, hop']
    simp only [if_neg hn]
    split
    · simp [ih (attempt + 1)]
    · rfl

/-- An operation that faults the same expected fault on every attempt, with
no side effects, exhausts the retry budget and propagates the fault after
`fuel + 1` attempts. -/
theorem connexionRun_error_expected_nil {α : Type}
    (expected noisy : List Fault) (op : Nat → Except Fault Unit × List α)
    (f : Fault) (hop : ∀ n, op n = (.error f, ([] : List α)))
    (he : f ∈ expected) (hn : f ∉ noisy) :
    ∀ fuel attempt,
      connexionRun expected noisy op fuel attempt =
        ⟨.error f, [], fuel + 1⟩ := by
  intro fuel
  induction fuel with
  | zero =>
    intro attempt
    rw [connexionRun, hop attempt]
    simp only [if_neg hn, if_pos he]
  | succ fuel' ih =>
    intro attempt
    rw [connexionRun, hop attempt]
    simp only [if_neg hn, if_pos he]
    rw [ih (attempt + 1)]
    simp

/-! ## Helper lemmas: the Redis consume event loop -/

/-- A prefix of items all processed without fault contributes only its
callback invocations: dead-letter republishes and the outcome are those of
the remainder of the loop. -/
theorem redisConsumeLoop_append (cb : Callback) (dl : Option String)
    (fuel : Nat) (pre l : List RedisItem)
    (hpre : ∀ i ∈ pre, RedisItemOk cb fuel i) :
    redisConsumeLoop cb dl fuel (pre ++ l) =
      ⟨(redisConsumeLoop cb dl fuel l).deadLetterPubs,
       pre.flatMap (itemCalls cb fuel) ++
         (redisConsumeLoop cb dl fuel l).callbackCalls,
       (redisConsumeLoop cb dl fuel l).outcome⟩ := by
  induction pre with
  | nil => simp
  | cons i pre' ih =>
    have hi := hpre i (by simp)
    match i with
    | .interrupt => exact absurd hi (by simp [RedisItemOk])
    | .event e =>
      have hok : (redisExecCallback cb fuel e).outcome = .ok () := hi
      rw [List.cons_append, redisConsumeLoop.eq_def]
      simp only [hok]
      rw [ih (fun x hx => hpre x (by simp [hx]))]
      simp [itemCalls]

/-! ## The claims -/

/-- C1: for every operation wrapped by the Retry Policy (`connexion`) with
declared expected and noisy fault sets, a fault in the noisy set is
suppressed and the wrapper returns as a no-op success without re-raising in
a single attempt, and a fault in neither set is re-raised immediately
without retrying the operation (exactly one attempt is made). -/
theorem retry_policy_classification {α : Type} (expected noisy : List Fault)
    (op : Nat → Except Fault Unit × List α) (fuel : Nat) (f : Fault)
    (hop : (op 0).1 = .error f) :
    (f ∈ noisy →
      (connexionRun expected noisy op fuel 0).outcome = .ok () ∧
      (connexionRun expected noisy op fuel 0).attempts = 1) ∧
    (f ∉ noisy → f ∉ expected →
      (connexionRun expected noisy op fuel 0).outcome = .error f ∧
      (connexionRun expected noisy op fuel 0).attempts = 1) := by
  have hop' : op 0 = (.error f, (op 0).2) := by rw [← hop]
  constructor
  · intro hn
    rw [connexionRun_noisy expected noisy op fuel 0 f _ hop' hn]
    exact ⟨rfl, rfl⟩
  · intro hn he
    rw [connexionRun_unexpected expected noisy op fuel 0 f _ hop' hn he]
    exact ⟨rfl, rfl⟩

/-- Witness for C1: with the fault sets of `check_topic`, an
`AlreadyExists` fault is suppressed after one attempt and a `TimeoutError`
fault (in neither set) is re-raised after one attempt. -/
theorem retry_policy_classification_witness :
    ((fun _ => ((.error .alreadyExists : Except Fault Unit),
        ([] : List Unit))) 0).1 = .error .alreadyExists ∧
    ((fun _ => ((.error .timeoutError : Except Fault Unit),
        ([] : List Unit))) 0).1 = .error .timeoutError ∧
    ((connexionRun [.serviceUnavailable] [.alreadyExists]
        (fun _ => (.error .alreadyExists, ([] : List Unit))) 3 0).outcome =
          .ok () ∧
      (connexionRun [.serviceUnavailable] [.alreadyExists]
        (fun _ => (.error .alreadyExists, ([] : List Unit))) 3 0).attempts =
          1) ∧
    ((connexionRun [.serviceUnavailable] [.alreadyExists]
        (fun _ => (.error .timeoutError, ([] : List Unit))) 3 0).outcome =
          .error .timeoutError ∧
      (connexionRun [.serviceUnavailable] [.alreadyExists]
        (fun _ => (.error .timeoutError, ([] : List Unit))) 3 0).attempts =
          1) :=
  ⟨rfl, rfl,
    (retry_policy_classification [.serviceUnavailable] [.alreadyExists]
      (fun _ => (.error .alreadyExists, [])) 3 .alreadyExists rfl).1
      (by decide),
    (retry_policy_classification [.serviceUnavailable] [.alreadyExists]
      (fun _ => (.error .timeoutError, [])) 3 .timeoutError rfl).2
      (by decide) (by decide)⟩

/-- C2: in the Redis consume loop with a dead-letter topic supplied, when a
message event's user callback raises a fault (after any prefix of items
processed without fault), the original raw event is republished to the
dead-letter topic exactly once and verbatim, the fault is re-raised as the
loop's outcome, and no further events are processed (the trace equals that
of the run that ends at the faulting event). -/
theorem redis_dead_letter_once (cb : Callback) (fuel : Nat) (dl : String)
    (pre : List RedisItem) (e : RedisEvent) (rest : List RedisItem)
    (hpre : ∀ i ∈ pre, RedisItemOk cb fuel i)
    (cps : List Nat) (htype : e.type = "message")
    (hdec : utf8Decode e.data = some cps)
    (f : Fault) (hcb : cb cps = .error f) (hex : f.isException = true) :
    (redisConsumeLoop cb (some dl) fuel
        (pre ++ .event e :: rest)).deadLetterPubs = [(dl, e)] ∧
    (redisConsumeLoop cb (some dl) fuel
        (pre ++ .event e :: rest)).outcome = .error f ∧
    redisConsumeLoop cb (some dl) fuel (pre ++ .event e :: rest) =
      redisConsumeLoop cb (some dl) fuel (pre ++ [.event e]) := by
  have hbody : ∀ n : Nat,
      ((fun _ => redisExecCallbackBody cb e) n).1 = .error f := by
    intro n
    simp only [redisExecCallbackBody, if_pos htype, hdec, hcb]
  have houtcome : (redisExecCallback cb fuel e).outcome = .error f :=
    connexionRun_error_outcome _ _ _ f hbody (by simp) fuel 0
  have hloop : ∀ rest' : List RedisItem,
      redisConsumeLoop cb (some dl) fuel (.event e :: rest') =
        ⟨[(dl, e)], (redisExecCallback cb fuel e).log, .error f⟩ := by
    intro rest'
    rw [redisConsumeLoop.eq_def]
    simp [houtcome, hex]
  rw [redisConsumeLoop_append cb (some dl) fuel pre _ hpre,
    redisConsumeLoop_append cb (some dl) fuel pre _ hpre]
  rw [hloop rest, hloop ([] : List RedisItem)]
  exact ⟨rfl, rfl, rfl⟩

/-- Witness for C2: a callback that always faults on the first message event
dead-letters that event once and ends the loop before the second event. -/
theorem redis_dead_letter_once_witness :
    ((⟨"message", [104]⟩ : RedisEvent).type = "message") ∧
    utf8Decode (⟨"message", [104]⟩ : RedisEvent).data = some [104] ∧
    ((fun _ => .error (.callbackError 7) : Callback) [104] =
      .error (.callbackError 7)) ∧
    (Fault.callbackError 7).isException = true ∧
    ((redisConsumeLoop (fun _ => .error (.callbackError 7)) (some "dl") 1
        ([] ++ .event ⟨"message", [104]⟩ ::
          [.event ⟨"message", [105]⟩])).deadLetterPubs =
      [("dl", ⟨"message", [104]⟩)] ∧
    (redisConsumeLoop (fun _ => .error (.callbackError 7)) (some "dl") 1
        ([] ++ .event ⟨"message", [104]⟩ ::
          [.event ⟨"message", [105]⟩])).outcome =
      .error (.callbackError 7) ∧
    redisConsumeLoop (fun _ => .error (.callbackError 7)) (some "dl") 1
        ([] ++ .event ⟨"message", [104]⟩ :: [.event ⟨"message", [105]⟩]) =
      redisConsumeLoop (fun _ => .error (.callbackError 7)) (some "dl") 1
        ([] ++ [.event ⟨"message", [104]⟩])) :=
  ⟨rfl, by decide, rfl, rfl,
    redis_dead_letter_once (fun _ => .error (.callbackError 7)) 1 "dl" []
      ⟨"message", [104]⟩ [.event ⟨"message", [105]⟩] (by simp)
      [104] rfl (by decide) (.callbackError 7) rfl rfl⟩

/-- C3: in the GCP consume path, a delivered (decodable) message is
acknowledged exactly when the user callback returns without fault; on a
callback fault the ack is withheld (no ack is ever recorded) and the wrapper
ends with `MessageProcessingException` instead. -/
theorem gcp_ack_iff_callback_ok (cb : Callback) (fuel : Nat)
    (m : GCPMessage) (cps : List Nat)
    (hdec : utf8Decode m.data = some cps) :
    (cb cps = .ok () → gcpExecCallback cb fuel m = ⟨.ok (), [()], 1⟩) ∧
    (∀ f, cb cps = .error f → f.isException = true →
      gcpExecCallback cb fuel m =
        ⟨.error .messageProcessingException, [], fuel + 1⟩) := by
  constructor
  · intro hok
    have hbody : gcpExecCallbackBody cb m = (.ok (), [()]) := by
      simp [gcpExecCallbackBody, hdec, hok]
    exact connexionRun_ok _ _ _ fuel 0 _ hbody
  · intro f hcb hex
    have hbody : ∀ n : Nat, (fun _ => gcpExecCallbackBody cb m) n =
        (.error .messageProcessingException, ([] : List Unit)) := by
      intro n
      simp [gcpExecCallbackBody, hdec, hcb, hex]
    exact connexionRun_error_expected_nil _ _ _ _ hbody (by decide)
      (by decide) fuel 0

/-- Witness for C3: a succeeding callback acks the message once; a faulting
callback never acks and ends in `MessageProcessingException`. -/
theorem gcp_ack_iff_callback_ok_witness :
    utf8Decode (⟨[104]⟩ : GCPMessage).data = some [104] ∧
    (gcpExecCallback (fun _ => .ok ()) 2 ⟨[104]⟩ = ⟨.ok (), [()], 1⟩) ∧
    (gcpExecCallback (fun _ => .error (.callbackError 3)) 2 ⟨[104]⟩ =
      ⟨.error .messageProcessingException, [], 3⟩) :=
  ⟨by decide,
    (gcp_ack_iff_callback_ok (fun _ => .ok ()) 2 ⟨[104]⟩ [104]
      (by decide)).1 rfl,
    (gcp_ack_iff_callback_ok (fun _ => .error (.callbackError 3)) 2 ⟨[104]⟩
      [104] (by decide)).2 (.callbackError 3) rfl rfl⟩

/-- C4: the factory recognizes `redis` and `gcp-pubsub` case-insensitively
and returns the matching client class, but on an unrecognized identifier
such as `kafka` it terminates the process with exit code 1 instead of
raising `UnsupportedBrokerError` (the defect the spec flags in §9). -/
theorem pubsubFactory_unknown_broker_exits :
    pubsubFactory [107, 97, 102, 107, 97] = .processExit 1 ∧
    pubsubFactory [82, 101, 100, 105, 115] = .redisClient ∧
    pubsubFactory [114, 101, 100, 105, 115] = .redisClient ∧
    pubsubFactory [71, 67, 80, 45, 80, 117, 98, 83, 117, 98] = .gcpClient ∧
    pubsubFactory [103, 99, 112, 45, 112, 117, 98, 115, 117, 98] =
      .gcpClient := by decide

/-- Counterexample for C5: a bytes payload that is not valid UTF-8
(the single byte `0x80`) is published verbatim, but the consume decode step
faults (`UnicodeDecodeError`, surfaced as `MessageProcessingException` on
the GCP path), so the callback never receives an equal payload. -/
theorem payload_roundtrip_fails_on_invalid_bytes :
    publishEncode (.bytes [0x80]) = [0x80] ∧
    utf8Decode [0x80] = none ∧
    redisExecCallbackBody (fun _ => .ok ()) ⟨"message", [0x80]⟩ =
      (.error .unicodeDecodeError, []) ∧
    gcpExecCallbackBody (fun _ => .ok ()) ⟨[0x80]⟩ =
      (.error .messageProcessingException, []) := by decide

/-- C5 (amended): for payloads given as text, or as bytes that are the UTF-8
encoding of a text, the payload handed to the consumer callback decodes to
exactly that text, whose encoding is byte-for-byte the published bytes;
bytes that are not valid UTF-8 make the consume decode step fault. -/
theorem payload_roundtrip_valid_utf8 (cps : List Nat) (h : ValidText cps) :
    utf8Decode (publishEncode (.text cps)) = some cps ∧
    utf8Decode (publishEncode (.bytes (utf8Encode cps))) = some cps ∧
    ∀ cb : Callback,
      redisExecCallbackBody cb ⟨"message", utf8Encode cps⟩ =
        (cb cps, [cps]) := by
  have hdec := utf8Decode_encode cps h
  refine ⟨hdec, hdec, ?_⟩
  intro cb
  simp [redisExecCallbackBody, hdec]

/-- Witness for C5: the two-code-point text `h€` round-trips through
publish and the consume decode step. -/
theorem payload_roundtrip_valid_utf8_witness :
    ValidText [104, 8364] ∧
    (utf8Decode (publishEncode (.text [104, 8364])) = some [104, 8364] ∧
     utf8Decode (publishEncode (.bytes (utf8Encode [104, 8364]))) =
       some [104, 8364] ∧
     ∀ cb : Callback,
       redisExecCallbackBody cb ⟨"message", utf8Encode [104, 8364]⟩ =
         (cb [104, 8364], [[104, 8364]])) :=
  ⟨by decide, payload_roundtrip_valid_utf8 [104, 8364] (by decide)⟩

/-- C6: provisioning is idempotent: for a topic and subscription name not
yet present, running `check_topic` twice and `check_subscription` twice
raises no visible error, the second run leaves the broker state unchanged,
and exactly one topic and one subscription of that name exist afterwards. -/
theorem provisioning_idempotent (t s : String) (fuel : Nat) (br : GCPBroker)
    (ht : t ∉ br.topics) (hs : s ∉ br.subscriptions.map Prod.fst) :
    (check_topic t fuel br).1 = .ok () ∧
    (check_topic t fuel (check_topic t fuel br).2).1 = .ok () ∧
    (check_topic t fuel (check_topic t fuel br).2).2 =
      (check_topic t fuel br).2 ∧
    ((check_topic t fuel br).2).topics.count t = 1 ∧
    (check_subscription t s fuel br).1 = .ok () ∧
    (check_subscription t s fuel (check_subscription t s fuel br).2).1 =
      .ok () ∧
    (check_subscription t s fuel (check_subscription t s fuel br).2).2 =
      (check_subscription t s fuel br).2 ∧
    (((check_subscription t s fuel br).2).subscriptions.map Prod.fst).count
      s = 1 ∧
    ((check_subscription t s fuel br).2).topics.count t = 1 := by
  have hctop2 : ∀ b2 : GCPBroker, t ∈ b2.topics →
      check_topic t fuel b2 = (.ok (), b2) := by
    intro b2 hm
    have hb : check_topic_body t b2 = (.ok (), b2) := by
      simp [check_topic_body, get_topic, hm]
    rw [check_topic, connexionSt, hb]
  have hcsub2 : ∀ b2 : GCPBroker, t ∈ b2.topics →
      s ∈ b2.subscriptions.map Prod.fst →
      check_subscription t s fuel b2 = (.ok (), b2) := by
    intro b2 hm hsm
    have hb : check_subscription_body t s fuel b2 = (.ok (), b2) := by
      rw [check_subscription_body, hctop2 b2 hm]
      simp [get_subscription, hsm]
    rw [check_subscription, connexionSt, hb]
  have hbody1 : check_topic_body t br =
      (.ok (), { br with topics := t :: br.topics }) := by
    simp [check_topic_body, get_topic, create_topic, ht]
  have h1 : check_topic t fuel br =
      (.ok (), { br with topics := t :: br.topics }) := by
    rw [check_topic, connexionSt, hbody1]
  have hsbody1 : check_subscription_body t s fuel br =
      (.ok (), ⟨t :: br.topics, (s, t) :: br.subscriptions⟩) := by
    rw [check_subscription_body, h1]
    simp [get_subscription, create_subscription, hs]
  have hs1 : check_subscription t s fuel br =
      (.ok (), ⟨t :: br.topics, (s, t) :: br.subscriptions⟩) := by
    rw [check_subscription, connexionSt, hsbody1]
  rw [h1, hs1]
  simp only [hctop2 { br with topics := t :: br.topics } (by simp),
    hcsub2 ⟨t :: br.topics, (s, t) :: br.subscriptions⟩ (by simp) (by simp)]
  simp [List.count_cons_self, List.count_eq_zero.mpr ht,
    List.count_eq_zero.mpr hs]

/-- Witness for C6: provisioning topic `t` and subscription `s` twice on an
empty broker succeeds both times and leaves exactly one of each. -/
theorem provisioning_idempotent_witness :
    (("t" : String) ∉ (⟨[], []⟩ : GCPBroker).topics) ∧
    (("s" : String) ∉ (⟨[], []⟩ : GCPBroker).subscriptions.map Prod.fst) ∧
    ((check_topic "t" 0 ⟨[], []⟩).1 = .ok () ∧
     (check_topic "t" 0 (check_topic "t" 0 ⟨[], []⟩).2).1 = .ok () ∧
     (check_topic "t" 0 (check_topic "t" 0 ⟨[], []⟩).2).2 =
       (check_topic "t" 0 ⟨[], []⟩).2 ∧
     ((check_topic "t" 0 ⟨[], []⟩).2).topics.count "t" = 1 ∧
     (check_subscription "t" "s" 0 ⟨[], []⟩).1 = .ok () ∧
     (check_subscription "t" "s" 0
        (check_subscription "t" "s" 0 ⟨[], []⟩).2).1 = .ok () ∧
     (check_subscription "t" "s" 0
        (check_subscription "t" "s" 0 ⟨[], []⟩).2).2 =
       (check_subscription "t" "s" 0 ⟨[], []⟩).2 ∧
     (((check_subscription "t" "s" 0 ⟨[], []⟩).2).subscriptions.map
        Prod.fst).count "s" = 1 ∧
     ((check_subscription "t" "s" 0 ⟨[], []⟩).2).topics.count "t" = 1) :=
  ⟨by simp, by simp,
    provisioning_idempotent "t" "s" 0 ⟨[], []⟩ (by simp) (by simp)⟩

/-- C7: an operator interruption (`KeyboardInterrupt`) during an active
consume returns normally for both backends: the Redis loop (after any prefix
of items processed without fault) ends with success when the blocking wait
is interrupted, and the GCP consume call cancels the streaming future and
returns success when `future.result()` is interrupted. -/
theorem consume_interrupt_graceful (cb : Callback) (dl : Option String)
    (fuel : Nat) (pre rest : List RedisItem)
    (hpre : ∀ i ∈ pre, RedisItemOk cb fuel i)
    (t s : String) (dl' : Option String) (br : GCPBroker)
    (stream : List GCPMessage)
    (hsub : (check_subscription t s fuel br).1 = .ok ()) :
    (redisConsumeLoop cb dl fuel (pre ++ .interrupt :: rest)).outcome =
      .ok () ∧
    (gcpConsume cb t s dl' fuel br stream .keyboardInterrupt).cancelled =
      true ∧
    (gcpConsume cb t s dl' fuel br stream .keyboardInterrupt).outcome =
      .ok () := by
  refine ⟨?_, ?_, ?_⟩
  · rw [redisConsumeLoop_append cb dl fuel pre _ hpre]
    rfl
  all_goals
    unfold gcpConsume
    split
    · rename_i f br' heq
      rw [heq] at hsub
      simp at hsub
    · rfl

/-- Witness for C7: interrupting an empty Redis loop and a provisioned GCP
streaming session both return success, the latter after cancelling. -/
theorem consume_interrupt_graceful_witness :
    (∀ i ∈ ([] : List RedisItem), RedisItemOk (fun _ => .ok ()) 0 i) ∧
    ((check_subscription "t" "s" 0 ⟨["t"], [("s", "t")]⟩).1 = .ok ()) ∧
    ((redisConsumeLoop (fun _ => .ok ()) none 0
        ([] ++ .interrupt :: [])).outcome = .ok () ∧
     (gcpConsume (fun _ => .ok ()) "t" "s" none 0 ⟨["t"], [("s", "t")]⟩ []
        .keyboardInterrupt).cancelled = true ∧
     (gcpConsume (fun _ => .ok ()) "t" "s" none 0 ⟨["t"], [("s", "t")]⟩ []
        .keyboardInterrupt).outcome = .ok ()) :=
  ⟨by simp, by decide,
    consume_interrupt_graceful (fun _ => .ok ()) none 0 [] [] (by simp)
      "t" "s" none ⟨["t"], [("s", "t")]⟩ [] (by decide)⟩

/-- C8: the GCP consume path never republishes to a dead-letter topic, and
the `deadLetter` parameter has no effect at all on the call's behavior: the
trace is identical to the one obtained with no dead-letter topic. -/
theorem gcp_consume_no_dead_letter (cb : Callback) (t s : String)
    (dl : Option String) (fuel : Nat) (br : GCPBroker)
    (stream : List GCPMessage) (se : StreamResult) :
    (gcpConsume cb t s dl fuel br stream se).deadLetterPubs = [] ∧
    gcpConsume cb t s dl fuel br stream se =
      gcpConsume cb t s none fuel br stream se := by
  refine ⟨?_, rfl⟩
  unfold gcpConsume
  split
  · rfl
  · split <;> rfl

/-- Counterexample for C9: calling `close()` on a Redis client before any
successful `open` raises `AttributeError` (the handle slot still holds
`None`), so `close` is not fault-free in every client state. -/
theorem redisClose_before_open_faults :
    redisClose ⟨none⟩ = .error .attributeError := rfl

/-- C9 (amended): `close()` raises no fault on the GCP client in any state,
and on the Redis client whenever a connection handle exists (i.e. after
`open` has assigned one); before any `open` the Redis `close()` faults. -/
theorem close_releases_when_handle_exists :
    gcpClose = .ok () ∧ redisClose ⟨some ()⟩ = .ok () := ⟨rfl, rfl⟩

/-- C10: a Redis event whose kind is not `message` (e.g. the subscription
confirmation) is skipped: the user callback is not invoked (the wrapped
`exec_callback` returns success with no calls after one attempt), nothing is
dead-lettered, no fault is raised, and the loop continues exactly as if the
event were absent. -/
theorem redis_non_message_event_skipped (cb : Callback) (dl : Option String)
    (fuel : Nat) (e : RedisEvent) (rest : List RedisItem)
    (h : e.type ≠ "message") :
    redisExecCallback cb fuel e = ⟨.ok (), [], 1⟩ ∧
    redisConsumeLoop cb dl fuel (.event e :: rest) =
      redisConsumeLoop cb dl fuel rest := by
  have hbody : redisExecCallbackBody cb e = (.ok (), []) := by
    rw [redisExecCallbackBody, if_neg h]
  have hexec : redisExecCallback cb fuel e = ⟨.ok (), [], 1⟩ :=
    connexionRun_ok _ _ _ fuel 0 [] hbody
  refine ⟨hexec, ?_⟩
  rw [redisConsumeLoop.eq_def]
  simp [hexec]

/-- Witness for C10: a `subscribe` confirmation event is skipped and the
loop's trace equals the trace without it. -/
theorem redis_non_message_event_skipped_witness :
    (("subscribe" : String) ≠ "message") ∧
    (redisExecCallback (fun _ => .ok ()) 0 ⟨"subscribe", []⟩ =
        ⟨.ok (), [], 1⟩ ∧
      redisConsumeLoop (fun _ => .ok ()) none 0
          [.event ⟨"subscribe", []⟩, .event ⟨"message", [104]⟩] =
        redisConsumeLoop (fun _ => .ok ()) none 0
          [.event ⟨"message", [104]⟩]) :=
  ⟨by decide, redis_non_message_event_skipped (fun _ => .ok ()) none 0
    ⟨"subscribe", []⟩ [.event ⟨"message", [104]⟩] (by decide)⟩

end Tesselite
